import Mathlib

/-!
Verification of the mitempr BLE sensor decoder/supervisor.

Shallow embedding conventions:
* Raw bytes are `Nat` values (each in 0..255 on real inputs); payloads are `List Nat`.
* Rust `f32` arithmetic is modelled exactly over `ℚ`: every division in the source is
  by 10, 100 or 1000 of a 16-bit integer, and the specification speaks of the exact
  decimal values, so rationals are the faithful value model (f32 rounding is not part
  of any claim).
* Rust indexing `data[i]` panics when `i` is out of bounds; where a surrounding length
  check guarantees the access is in bounds we read with `List.getD`, and where the
  source's guard does NOT guarantee it we model the possible panic explicitly.
* Fallible Rust functions returning `Result<T>` are embedded into `RustResult`, which
  also has a `panic` constructor for runtime panics (out-of-bounds index, `unwrap` on
  an error).
-/

namespace Mitempr

/-- Little-endian unsigned 16-bit value from two bytes (u16::from_le_bytes). -/
def u16_le (lo hi : Nat) : Nat := lo + 256 * hi

/-- Little-endian signed 16-bit value from two bytes (i16::from_le_bytes). -/
def i16_le (lo hi : Nat) : Int :=
  let u := u16_le lo hi
  if u < 32768 then (u : Int) else (u : Int) - 65536

/-- Outcome of a fallible Rust computation: normal value, recoverable error
(Result::Err), or a runtime panic. -/
inductive RustResult (ε α : Type) where
  | ok (val : α)
  | err (e : ε)
  | panic
deriving DecidableEq, Repr

namespace Decoder

/-- SensorData struct of src/src/decoder.rs: four independently optional fields. -/
structure SensorData where
  temperature : Option ℚ
  humidity : Option ℚ
  battery : Option Nat
  voltage : Option ℚ
deriving DecidableEq, Repr

/-- BlePacketType enum of src/src/decoder.rs. -/
inductive BlePacketType where
  | Mijia
  | BTHome
  | Pvvx
  | Other
deriving DecidableEq, Repr

/-- Mijia service UUID 0xFE95 (full 128-bit value, as in the source constants). -/
def MIJIA_SERVICE_UUID : Nat := 0x0000FE9500001000800000805F9B34FB

/-- BTHome service UUID 0xFCD2. -/
def BTHOME_SERVICE_UUID : Nat := 0x0000FCD200001000800000805F9B34FB

/-- PVVX service UUID 0x181A. -/
def PVVX_SERVICE_UUID : Nat := 0x0000181A00001000800000805F9B34FB

/-- Fixed BTHome v2 preamble prepended before parsing. -/
def BTHOME_V2_PREAMBLE : List Nat := [0x16, 0xd2, 0xfc, 0x40]

/-- PeripheralProperties, restricted to the fields the decoder reads:
the service-data and manufacturer-data maps, modelled as association lists
(rssi/address/name are only printed and carry no decode-relevant data). -/
structure PeripheralProperties where
  service_data : List (Nat × List Nat)
  manufacturer_data : List (Nat × List Nat)
deriving DecidableEq, Repr

/-- get_packet_type of src/src/decoder.rs: check the three recognized service UUIDs
in fixed order Mijia, BTHome, PVVX; first match wins; otherwise Other with no data. -/
def get_packet_type (props : PeripheralProperties) :
    BlePacketType × Option (List Nat) :=
  match props.service_data.lookup MIJIA_SERVICE_UUID with
  | some data => (BlePacketType.Mijia, some data)
  | none =>
    match props.service_data.lookup BTHOME_SERVICE_UUID with
    | some data => (BlePacketType.BTHome, some data)
    | none =>
      match props.service_data.lookup PVVX_SERVICE_UUID with
      | some data => (BlePacketType.Pvvx, some data)
      | none => (BlePacketType.Other, none)

/-- Error payload of handle_lywsdcgq_packet: the anyhow messages carry the observed
length, and for the unrecognized/incomplete case also the type identifier byte. -/
inductive MijiaErr where
  | tooShort (len : Nat)
  | unrecognized (typeId : Nat) (len : Nat)
deriving DecidableEq, Repr

/-- handle_lywsdcgq_packet of src/src/decoder.rs (MijiaV3). Requires length > 11,
dispatches on the type-identifier byte at offset 11. Note the 0x0A arm: the source
guards `data.len() >= 13` but then reads `data[14]`, which panics in Rust whenever
the length is 13 or 14; that panic is modelled explicitly. All other byte reads are
covered by their arm's length guard. -/
def handle_lywsdcgq_packet (data : List Nat) : RustResult MijiaErr SensorData :=
  if data.length < 11 + 1 then
    RustResult.err (MijiaErr.tooShort data.length)
  else
    let type_identifier := data.getD 11 0
    if type_identifier = 0x0D then
      -- 0x0D: combined temperature and humidity, guard len >= 18
      if 18 ≤ data.length then
        let raw_temp := i16_le (data.getD 14 0) (data.getD 15 0)
        let raw_humi := u16_le (data.getD 16 0) (data.getD 17 0)
        RustResult.ok
          { temperature := some ((raw_temp : ℚ) / 10)
            humidity := some ((raw_humi : ℚ) / 10)
            battery := none
            voltage := none }
      else RustResult.err (MijiaErr.unrecognized type_identifier data.length)
    else if type_identifier = 0x04 then
      -- 0x04: temperature only, guard len >= 16
      if 16 ≤ data.length then
        let raw_temp := i16_le (data.getD 14 0) (data.getD 15 0)
        RustResult.ok
          { temperature := some ((raw_temp : ℚ) / 10)
            humidity := none
            battery := none
            voltage := none }
      else RustResult.err (MijiaErr.unrecognized type_identifier data.length)
    else if type_identifier = 0x0A then
      -- 0x0A: battery only, guard len >= 13 but the read is data[14]
      if 13 ≤ data.length then
        if 14 < data.length then
          RustResult.ok
            { temperature := none
              humidity := none
              battery := some (data.getD 14 0)
              voltage := none }
        else RustResult.panic  -- Rust index-out-of-bounds panic at data[14]
      else RustResult.err (MijiaErr.unrecognized type_identifier data.length)
    else if type_identifier = 0x06 then
      -- 0x06: humidity only, guard len >= 16
      if 16 ≤ data.length then
        let raw_humi := u16_le (data.getD 14 0) (data.getD 15 0)
        RustResult.ok
          { temperature := none
            humidity := some ((raw_humi : ℚ) / 10)
            battery := none
            voltage := none }
      else RustResult.err (MijiaErr.unrecognized type_identifier data.length)
    else
      RustResult.err (MijiaErr.unrecognized type_identifier data.length)

/-- Error payload of handle_pvvx_packet: the too-short message reports the
observed length. -/
inductive PvvxErr where
  | tooShort (len : Nat)
deriving DecidableEq, Repr

/-- handle_pvvx_packet of src/src/decoder.rs: length guard >= 15, skip the 6-byte
MAC, then positional fields; every read is within the guaranteed 9 bytes. -/
def handle_pvvx_packet (data : List Nat) : RustResult PvvxErr SensorData :=
  if data.length < 15 then
    RustResult.err (PvvxErr.tooShort data.length)
  else
    let data_slice := data.drop 6
    let raw_temp := i16_le (data_slice.getD 0 0) (data_slice.getD 1 0)
    let raw_humi := u16_le (data_slice.getD 2 0) (data_slice.getD 3 0)
    let raw_volt := u16_le (data_slice.getD 4 0) (data_slice.getD 5 0)
    RustResult.ok
      { temperature := some ((raw_temp : ℚ) / 100)
        humidity := some ((raw_humi : ℚ) / 100)
        battery := some (data_slice.getD 6 0)
        voltage := some ((raw_volt : ℚ) / 1000) }

/-- Loop body of handle_bthome_packet, written with explicit fuel so that the
function is structurally recursive and kernel-computable. The loop advances `i`
by at least 2 on every iteration, so any fuel of at least `data.length` makes the
fuel case unreachable; `handle_bthome_packet` supplies `data.length + 1`. -/
def bthome_loop (data : List Nat) : Nat → Nat → SensorData → SensorData
  | 0, _, result => result
  | fuel + 1, i, result =>
    if i < data.length then
      if data.length ≤ i + 1 then result
      else
        if data.getD i 0 = 0x01 then
          -- battery (%), 1 byte
          if data.length ≤ i + 1 then result
          else bthome_loop data fuel (i + 2) { result with battery := some (data.getD (i + 1) 0) }
        else if data.getD i 0 = 0x02 then
          -- temperature, 2 bytes LE signed, factor 0.01
          if data.length ≤ i + 2 then result
          else
            let temp_raw := i16_le (data.getD (i + 1) 0) (data.getD (i + 2) 0)
            bthome_loop data fuel (i + 3) { result with temperature := some ((temp_raw : ℚ) / 100) }
        else if data.getD i 0 = 0x03 then
          -- humidity, 2 bytes LE unsigned, factor 0.01
          if data.length ≤ i + 2 then result
          else
            let hum_raw := u16_le (data.getD (i + 1) 0) (data.getD (i + 2) 0)
            bthome_loop data fuel (i + 3) { result with humidity := some ((hum_raw : ℚ) / 100) }
        else if data.getD i 0 = 0x0C then
          -- voltage, 2 bytes LE unsigned, factor 0.001
          if data.length ≤ i + 2 then result
          else
            let voltage_raw := u16_le (data.getD (i + 1) 0) (data.getD (i + 2) 0)
            bthome_loop data fuel (i + 3) { result with voltage := some ((voltage_raw : ℚ) / 1000) }
        else
          -- unknown tag: skip an assumed type + 1-byte value
          bthome_loop data fuel (i + 2) result
    else result

/-- handle_bthome_packet of src/src/decoder.rs: prepend the 4-byte preamble, slice
the first 4 bytes off again, and run the tag/value loop starting at index 1
(skipping the header/packet-id byte unconditionally). Always returns Some. -/
def handle_bthome_packet (payload : List Nat) : Option SensorData :=
  let all_data := BTHOME_V2_PREAMBLE ++ payload
  let data := all_data.drop 4
  some (bthome_loop data (data.length + 1) 1
    { temperature := none, humidity := none, battery := none, voltage := none })

/-- Observable outcome of classify_and_decode (a printing function in the source):
either a decoded reading handed to output_sensor_data, a process panic (the source
calls .unwrap() on each decoder's result), or the Other branch that only prints
manufacturer data and invokes no decoder. -/
inductive CDOutcome where
  | reading (s : SensorData)
  | panic
  | unclassified
deriving DecidableEq, Repr

/-- classify_and_decode of src/src/decoder.rs, with printing stripped: classify,
then run the matching decoder and .unwrap() its result (an Err or a decoder panic
terminates the process), or fall through to the Other branch with no decode. -/
def classify_and_decode (props : PeripheralProperties) : CDOutcome :=
  match get_packet_type props with
  | (BlePacketType.Mijia, data_option) =>
    match handle_lywsdcgq_packet (data_option.getD []) with
    | RustResult.ok s => CDOutcome.reading s
    | RustResult.err _ => CDOutcome.panic   -- .unwrap() on Err panics
    | RustResult.panic => CDOutcome.panic
  | (BlePacketType.BTHome, data_option) =>
    match handle_bthome_packet (data_option.getD []) with
    | some s => CDOutcome.reading s
    | none => CDOutcome.panic
  | (BlePacketType.Pvvx, data_option) =>
    match handle_pvvx_packet (data_option.getD []) with
    | RustResult.ok s => CDOutcome.reading s
    | RustResult.err _ => CDOutcome.panic
    | RustResult.panic => CDOutcome.panic
  | (BlePacketType.Other, _) => CDOutcome.unclassified

end Decoder

namespace Sensor

/-- SensorReading enum of src/src/sensor.rs. -/
inductive SensorReading where
  | Temperature (t : ℚ)
  | Humidity (h : ℚ)
  | Battery (b : Nat)
  | Voltage (v : ℚ)
deriving DecidableEq, Repr

/-- decode_atc of src/src/sensor.rs: below 5 bytes return no readings; otherwise
push temperature (u16 LE at bytes 2-3, factor 0.01), humidity (raw byte 4), and,
when the slice has a last byte, battery (that last byte). -/
def decode_atc (data : List Nat) : List SensorReading :=
  if data.length < 5 then []
  else
    let temp_raw := u16_le (data.getD 2 0) (data.getD 3 0)
    let readings := [SensorReading.Temperature ((temp_raw : ℚ) / 100),
                     SensorReading.Humidity ((data.getD 4 0 : ℚ))]
    match data.getLast? with
    | some batt => readings ++ [SensorReading.Battery batt]
    | none => readings

/-- Loop body of decode_bthome of src/src/sensor.rs, with explicit fuel so that the
function is structurally recursive and kernel-computable. Every iteration that
recurses advances `i` by at least 2 (key byte plus at least one value byte), so a
fuel of `data.length + 1` (supplied by decode_bthome) makes the fuel case
unreachable. After reading the key at `i` the source increments `i` before the
per-key bounds checks; `j` is that incremented index. -/
def sensor_bthome_loop (data : List Nat) : Nat → Nat → List SensorReading → List SensorReading
  | 0, _, readings => readings
  | fuel + 1, i, readings =>
    if i < data.length then
      let key := data.getD i 0
      let j := i + 1
      if key = 0x01 then
        -- temperature: int16 LE, factor 0.01
        if j + 2 ≤ data.length then
          let raw := i16_le (data.getD j 0) (data.getD (j + 1) 0)
          sensor_bthome_loop data fuel (j + 2)
            (readings ++ [SensorReading.Temperature ((raw : ℚ) / 100)])
        else readings
      else if key = 0x02 then
        -- humidity: uint8 percent
        if j + 1 ≤ data.length then
          sensor_bthome_loop data fuel (j + 1)
            (readings ++ [SensorReading.Humidity ((data.getD j 0 : ℚ))])
        else readings
      else if key = 0x03 then
        -- battery: uint8 percent
        if j + 1 ≤ data.length then
          sensor_bthome_loop data fuel (j + 1)
            (readings ++ [SensorReading.Battery (data.getD j 0)])
        else readings
      else if key = 0x04 then
        -- voltage: uint16 LE mV, factor 0.001
        if j + 2 ≤ data.length then
          let raw := u16_le (data.getD j 0) (data.getD (j + 1) 0)
          sensor_bthome_loop data fuel (j + 2)
            (readings ++ [SensorReading.Voltage ((raw : ℚ) / 1000)])
        else readings
      else readings    -- unknown key: stop to avoid misparse
    else readings

/-- decode_bthome of src/src/sensor.rs: run the key/value loop from index 0 with an
empty reading list. -/
def decode_bthome (data : List Nat) : List SensorReading :=
  sensor_bthome_loop data (data.length + 1) 0 []

/-- decode_sensor of src/src/sensor.rs: try BTHome first; fall back to ATC exactly
when the BTHome pass yielded no readings. -/
def decode_sensor (data : List Nat) : List SensorReading :=
  let bthome := decode_bthome data
  if bthome.isEmpty then decode_atc data else bthome

end Sensor

namespace Main

/-- AdapterEvent of the bluer API as consumed by src/src/main.rs: device added,
device removed, or any other event (ignored by both loops). Addresses are opaque
identifiers, modelled as Nat. -/
inductive AdapterEvent where
  | DeviceAdded (addr : Nat)
  | DeviceRemoved (addr : Nat)
  | OtherEvent
deriving DecidableEq, Repr

/-- State shared by the event-processing loop of src/src/main.rs: the seen-device
set and the watchdog's last-decode timestamp (an Instant, modelled as Nat). -/
structure RouterState where
  seen_devices : List Nat
  last_ble_packet : Nat
deriving DecidableEq, Repr

/-- Modelled from the spec: `decoder::handle_service_data` is called by main.rs but
is absent from src/src/decoder.rs; per the spec it runs classification then decoding
over the device's service-data map and yields the reading when one was produced
(decode failure or an unclassified advertisement yield nothing). -/
def handle_service_data (data_map : List (Nat × List Nat)) :
    Option Decoder.SensorData :=
  match Decoder.classify_and_decode { service_data := data_map, manufacturer_data := [] } with
  | Decoder.CDOutcome.reading s => some s
  | _ => none

/-- One step of the event-processing loop of src/src/main.rs (lines 113-131 plus
handle_device): `env addr` is the device's service-data snapshot fetched from the
radio API (none when the device reports no service data or the query fails), and
`now` is the current instant. On DeviceAdded for an unseen address the device is
recorded and decoded, and the watchdog timestamp is set to `now` only when
handle_service_data produced a reading; DeviceRemoved only shrinks the seen set;
the discovery task (main.rs lines 64-81) forwards DeviceAdded/DeviceRemoved
without touching the timestamp, so all timestamp writes are captured here. -/
def router_step (env : Nat → Option (List (Nat × List Nat))) (now : Nat)
    (st : RouterState) (evt : AdapterEvent) : RouterState :=
  match evt with
  | AdapterEvent.DeviceAdded addr =>
    if st.seen_devices.contains addr then st
    else
      let st1 : RouterState := { st with seen_devices := addr :: st.seen_devices }
      match env addr with
      | some data_map =>
        match handle_service_data data_map with
        | some _ => { st1 with last_ble_packet := now }
        | none => st1
      | none => st1
  | AdapterEvent.DeviceRemoved addr =>
    { st with seen_devices := st.seen_devices.erase addr }
  | AdapterEvent.OtherEvent => st

end Main

/-- MijiaV3 test vector of the spec: type identifier 0x0D at offset 11, length 18. -/
def mijia_vector : List Nat :=
  [0x50, 0x20, 0xAA, 0x01, 0xF5, 0x40, 0x71, 0xD5, 0xA8,
   0x65, 0x4C, 0x0D, 0x10, 0x04, 0xEA, 0x00, 0x61, 0x02]

/-- PVVX test vector of the spec: length 15. -/
def pvvx_vector : List Nat :=
  [0x03, 0x7B, 0xA0, 0x38, 0xC1, 0xA4, 0xF2, 0x08, 0x19,
   0x19, 0x1D, 0x09, 0x10, 0x4A, 0x05]

/-- BTHomeV2 test vector of the spec: the received payload, length 11. -/
def bthome_vector : List Nat :=
  [0x40, 0x00, 0x12, 0x01, 0x64, 0x02, 0x7D, 0x09, 0x03, 0x8D, 0x18]

end Mitempr

namespace Mitempr

open Decoder

/-- Unfolding lemma: the BTHome loop returns the accumulated result as soon as
fewer than two bytes remain at the cursor (also when the cursor is past the end). -/
theorem bthome_loop_done (data : List Nat) (fuel i : Nat) (r : SensorData)
    (h : data.length ≤ i + 1) :
    bthome_loop data (fuel + 1) i r = r := by
  simp only [bthome_loop]
  by_cases hi : i < data.length
  · rw [if_pos hi, if_pos h]
  · rw [if_neg hi]

/-- Unfolding lemma: on an unrecognized tag with at least two bytes remaining the
BTHome loop advances the cursor by exactly two and keeps the result unchanged. -/
theorem bthome_loop_unknown (data : List Nat) (fuel i : Nat) (r : SensorData)
    (h : i + 1 < data.length)
    (h1 : data.getD i 0 ≠ 0x01) (h2 : data.getD i 0 ≠ 0x02)
    (h3 : data.getD i 0 ≠ 0x03) (h4 : data.getD i 0 ≠ 0x0C) :
    bthome_loop data (fuel + 1) i r = bthome_loop data fuel (i + 2) r := by
  simp only [bthome_loop]
  rw [if_pos (show i < data.length by omega),
      if_neg (show ¬data.length ≤ i + 1 by omega),
      if_neg h1, if_neg h2, if_neg h3, if_neg h4]

/-- Unfolding lemma: tag 0x01 with its one value byte available records the raw
battery byte and advances the cursor by two. -/
theorem bthome_loop_battery (data : List Nat) (fuel i : Nat) (r : SensorData)
    (h : i + 1 < data.length) (hk : data.getD i 0 = 0x01) :
    bthome_loop data (fuel + 1) i r =
      bthome_loop data fuel (i + 2) { r with battery := some (data.getD (i + 1) 0) } := by
  simp only [bthome_loop]
  rw [if_pos (show i < data.length by omega),
      if_neg (show ¬data.length ≤ i + 1 by omega), hk,
      if_pos rfl, if_neg (show ¬data.length ≤ i + 1 by omega)]

/-- Unfolding lemma: tag 0x02 with its two value bytes available records the
scaled signed temperature and advances the cursor by three. -/
theorem bthome_loop_temperature (data : List Nat) (fuel i : Nat) (r : SensorData)
    (h : i + 2 < data.length) (hk : data.getD i 0 = 0x02) :
    bthome_loop data (fuel + 1) i r =
      bthome_loop data fuel (i + 3)
        { r with temperature := some ((i16_le (data.getD (i + 1) 0) (data.getD (i + 2) 0) : ℚ) / 100) } := by
  simp only [bthome_loop]
  rw [if_pos (show i < data.length by omega),
      if_neg (show ¬data.length ≤ i + 1 by omega), hk]
  norm_num [show ¬data.length ≤ i + 2 from by omega]

/-- Unfolding lemma: tag 0x03 with its two value bytes available records the
scaled unsigned humidity and advances the cursor by three. -/
theorem bthome_loop_humidity (data : List Nat) (fuel i : Nat) (r : SensorData)
    (h : i + 2 < data.length) (hk : data.getD i 0 = 0x03) :
    bthome_loop data (fuel + 1) i r =
      bthome_loop data fuel (i + 3)
        { r with humidity := some ((u16_le (data.getD (i + 1) 0) (data.getD (i + 2) 0) : ℚ) / 100) } := by
  simp only [bthome_loop]
  rw [if_pos (show i < data.length by omega),
      if_neg (show ¬data.length ≤ i + 1 by omega), hk]
  norm_num [show ¬data.length ≤ i + 2 from by omega]

/-- Unfolding lemma: tag 0x0C with its two value bytes available records the
scaled voltage and advances the cursor by three. -/
theorem bthome_loop_voltage (data : List Nat) (fuel i : Nat) (r : SensorData)
    (h : i + 2 < data.length) (hk : data.getD i 0 = 0x0C) :
    bthome_loop data (fuel + 1) i r =
      bthome_loop data fuel (i + 3)
        { r with voltage := some ((u16_le (data.getD (i + 1) 0) (data.getD (i + 2) 0) : ℚ) / 1000) } := by
  simp only [bthome_loop]
  rw [if_pos (show i < data.length by omega),
      if_neg (show ¬data.length ≤ i + 1 by omega), hk]
  norm_num [show ¬data.length ≤ i + 2 from by omega]

/-- C7: the BTHomeV2 decoder applied to the received payload
40 00 12 01 64 02 7D 09 03 8D 18 — after prepending the fixed 4-byte preamble and
unconditionally skipping the header/packet-id byte — returns exactly
battery = 100, temperature = 24.29, humidity = 62.85 and no voltage. -/
theorem c7_bthome_vector_decodes :
    handle_bthome_packet bthome_vector =
      some { temperature := some (2429 / 100), humidity := some (6285 / 100),
             battery := some 100, voltage := none } := by
  have h0 : handle_bthome_packet bthome_vector =
      some (bthome_loop bthome_vector 12 1 ⟨none, none, none, none⟩) := by
    norm_num [handle_bthome_packet, BTHOME_V2_PREAMBLE, bthome_vector]
  have h1 : bthome_loop bthome_vector 12 1 ⟨none, none, none, none⟩ =
      ⟨some (2429 / 100), some (6285 / 100), some 100, none⟩ :=
    calc bthome_loop bthome_vector 12 1 ⟨none, none, none, none⟩
        = bthome_loop bthome_vector 11 3 ⟨none, none, none, none⟩ :=
          bthome_loop_unknown bthome_vector 11 1 _
            (by decide) (by decide) (by decide) (by decide) (by decide)
      _ = bthome_loop bthome_vector 10 5 ⟨none, none, some 100, none⟩ :=
          bthome_loop_battery bthome_vector 10 3 _ (by decide) (by decide)
      _ = bthome_loop bthome_vector 9 8 ⟨some (2429 / 100), none, some 100, none⟩ :=
          bthome_loop_temperature bthome_vector 9 5 _ (by decide) (by decide)
      _ = bthome_loop bthome_vector 8 11
            ⟨some (2429 / 100), some (6285 / 100), some 100, none⟩ :=
          bthome_loop_humidity bthome_vector 8 8 _ (by decide) (by decide)
      _ = ⟨some (2429 / 100), some (6285 / 100), some 100, none⟩ :=
          bthome_loop_done bthome_vector 7 11 _ (by decide)
  rw [h0, h1]

/-- C1: refuted on the code as written. The MijiaV3 decoder is not total over its
input: on the 13-byte payload whose type identifier at offset 11 is 0x0A, the 0x0A
arm's guard (length >= 13) admits the payload but the battery read is at offset 14,
an out-of-bounds access — a Rust panic, not a reported decode failure. -/
theorem c1_mijia_oob_panic :
    handle_lywsdcgq_packet [0, 0, 0, 0, 0, 0, 0, 0, 0, 0, 0, 0x0A, 0] =
      RustResult.panic := by decide

/-- C2: refuted on the code as written at length 14: a MijiaV3 payload of length 14
with type identifier 0x0A at offset 11 does not produce a decode failure reporting
the type identifier and length — the out-of-bounds read of offset 14 panics. -/
theorem c2_mijia_battery_short_panics :
    handle_lywsdcgq_packet [0, 0, 0, 0, 0, 0, 0, 0, 0, 0, 0, 0x0A, 0, 0] =
      RustResult.panic := by decide

/-- C3: refuted on the code as written. classify_and_decode calls .unwrap() on each
decoder's result, so a decode failure (here: an empty Mijia payload, a too-short
error) panics the process instead of being logged and absorbed. -/
theorem c3_decode_failure_panics :
    classify_and_decode
      { service_data := [(MIJIA_SERVICE_UUID, [])], manufacturer_data := [] } =
      CDOutcome.panic := by decide

/-- C4: in every step of the event-processing loop, the watchdog's last-decode
timestamp changes only when the event is a device-added notification for an unseen
address whose fetched service data decodes to a reading; device-removed events and
device-added events that do not yield a decoded reading never update it. -/
theorem c4_watchdog_updates_only_on_decode
    (env : Nat → Option (List (Nat × List Nat))) (now : Nat)
    (st : Main.RouterState) (evt : Main.AdapterEvent)
    (h : (Main.router_step env now st evt).last_ble_packet ≠ st.last_ble_packet) :
    ∃ addr data_map s, evt = Main.AdapterEvent.DeviceAdded addr ∧
      st.seen_devices.contains addr = false ∧
      env addr = some data_map ∧
      Main.handle_service_data data_map = some s := by
  cases evt with
  | DeviceAdded addr =>
    by_cases hc : addr ∈ st.seen_devices
    · exact absurd (by simp [Main.router_step, hc]) h
    · cases henv : env addr with
      | none =>
        exact absurd (by simp [Main.router_step, hc, henv]) h
      | some dm =>
        cases hsd : Main.handle_service_data dm with
        | none =>
          exact absurd (by simp [Main.router_step, hc, henv, hsd]) h
        | some s =>
          exact ⟨addr, dm, s, rfl, by simpa using hc, henv, hsd⟩
  | DeviceRemoved addr => exact absurd (by simp [Main.router_step]) h
  | OtherEvent => exact absurd (by simp [Main.router_step]) h

/-- Witness for C4: a concrete step (device 7 added to an empty seen set, service
data decoding as a MijiaV3 reading) in which the timestamp does change, so the
theorem's hypothesis is satisfiable and its conclusion holds there. -/
theorem c4_watchdog_witness :
    ∃ addr data_map s,
      Main.AdapterEvent.DeviceAdded 7 = Main.AdapterEvent.DeviceAdded addr ∧
      ([] : List Nat).contains addr = false ∧
      some [(MIJIA_SERVICE_UUID, mijia_vector)] = some data_map ∧
      Main.handle_service_data data_map = some s :=
  c4_watchdog_updates_only_on_decode
    (fun _ => some [(MIJIA_SERVICE_UUID, mijia_vector)]) 5
    { seen_devices := [], last_ble_packet := 0 }
    (Main.AdapterEvent.DeviceAdded 7) (by decide)

/-- C5: every MijiaV3 payload with type identifier 0x0D at offset 11 and length at
least 18 decodes to temperature = signed LE 16-bit at offsets 14-15 divided by 10
and humidity = unsigned LE 16-bit at offsets 16-17 divided by 10. -/
theorem c5_mijia_combined (data : List Nat) (hlen : 18 ≤ data.length)
    (hty : data.getD 11 0 = 0x0D) :
    handle_lywsdcgq_packet data = RustResult.ok
      { temperature := some ((i16_le (data.getD 14 0) (data.getD 15 0) : ℚ) / 10),
        humidity := some ((u16_le (data.getD 16 0) (data.getD 17 0) : ℚ) / 10),
        battery := none, voltage := none } := by
  simp only [handle_lywsdcgq_packet]
  rw [if_neg (show ¬data.length < 11 + 1 from by omega), if_pos hty, if_pos hlen]

/-- Witness for C5: the spec's MijiaV3 vector (length 18, type 0x0D) decodes to
temperature 23.4 (= 234/10) and humidity 60.9 (= 609/10). -/
theorem c5_mijia_witness :
    handle_lywsdcgq_packet mijia_vector = RustResult.ok
      { temperature := some (234 / 10), humidity := some (609 / 10),
        battery := none, voltage := none } :=
  c5_mijia_combined mijia_vector (by decide) (by decide)

/-- C6: every PVVX payload of length at least 15 decodes positionally from the 9
bytes after the 6-byte MAC (signed LE/100 temperature, unsigned LE/100 humidity,
unsigned LE/1000 voltage, raw battery byte, last two counter bytes ignored), and
every shorter payload yields exactly the too-short decode failure with no fields
produced and no out-of-bounds access. -/
theorem c6_pvvx_decode (data : List Nat) :
    (15 ≤ data.length →
      handle_pvvx_packet data = RustResult.ok
        { temperature :=
            some ((i16_le ((data.drop 6).getD 0 0) ((data.drop 6).getD 1 0) : ℚ) / 100),
          humidity :=
            some ((u16_le ((data.drop 6).getD 2 0) ((data.drop 6).getD 3 0) : ℚ) / 100),
          battery := some ((data.drop 6).getD 6 0),
          voltage :=
            some ((u16_le ((data.drop 6).getD 4 0) ((data.drop 6).getD 5 0) : ℚ) / 1000) }) ∧
    (data.length < 15 →
      handle_pvvx_packet data = RustResult.err (PvvxErr.tooShort data.length)) := by
  constructor
  · intro h
    simp only [handle_pvvx_packet]
    rw [if_neg (show ¬data.length < 15 from by omega)]
  · intro h
    simp only [handle_pvvx_packet]
    rw [if_pos h]

/-- Witness for C6: the spec's PVVX vector decodes to temperature 22.90 (= 2290/100),
humidity 64.25 (= 6425/100), voltage 2.333 (= 2333/1000), battery 16; and a 3-byte
payload yields the too-short failure. -/
theorem c6_pvvx_witness :
    handle_pvvx_packet pvvx_vector = RustResult.ok
      { temperature := some (2290 / 100), humidity := some (6425 / 100),
        battery := some 16, voltage := some (2333 / 1000) } ∧
    handle_pvvx_packet [1, 2, 3] = RustResult.err (PvvxErr.tooShort 3) :=
  ⟨(c6_pvvx_decode pvvx_vector).1 (by decide),
   (c6_pvvx_decode [1, 2, 3]).2 (by decide)⟩

/-- C8: the BTHomeV2 decoder never reports a failure (it always returns a result,
possibly with no fields), its loop stops cleanly whenever fewer than two bytes
remain for a tag+value pair, and on every unrecognized tag it advances exactly two
positions (tag byte plus one assumed value byte) with the result unchanged. -/
theorem c8_bthome_never_fails (payload data : List Nat) (fuel i : Nat)
    (r : SensorData) :
    (∃ s, handle_bthome_packet payload = some s) ∧
    (data.length ≤ i + 1 → bthome_loop data (fuel + 1) i r = r) ∧
    (i + 1 < data.length →
      data.getD i 0 ≠ 0x01 → data.getD i 0 ≠ 0x02 → data.getD i 0 ≠ 0x03 →
      data.getD i 0 ≠ 0x0C →
      bthome_loop data (fuel + 1) i r = bthome_loop data fuel (i + 2) r) :=
  ⟨⟨_, rfl⟩, fun h => bthome_loop_done data fuel i r h,
   fun h h1 h2 h3 h4 => bthome_loop_unknown data fuel i r h h1 h2 h3 h4⟩

/-- Witness for C8: the empty payload still yields a result; a cursor with one byte
left stops with the accumulated result; an unrecognized tag 0xFF advances the
cursor from 0 to 2 leaving the result unchanged. -/
theorem c8_bthome_witness :
    (∃ s, handle_bthome_packet [] = some s) ∧
    bthome_loop [0, 0] 1 1 ⟨none, none, none, none⟩ = ⟨none, none, none, none⟩ ∧
    bthome_loop [0xFF, 0, 0, 0] 2 0 ⟨none, none, none, none⟩ =
      bthome_loop [0xFF, 0, 0, 0] 1 2 ⟨none, none, none, none⟩ :=
  ⟨(c8_bthome_never_fails [] [] 0 0 ⟨none, none, none, none⟩).1,
   (c8_bthome_never_fails [] [0, 0] 0 1 ⟨none, none, none, none⟩).2.1 (by decide),
   (c8_bthome_never_fails [] [0xFF, 0, 0, 0] 1 0 ⟨none, none, none, none⟩).2.2
     (by decide) (by decide) (by decide) (by decide) (by decide)⟩

/-- C9: classification checks the three recognized service identifiers in the fixed
order Mijia, BTHomeV2, PVVX and returns the first match with its payload; when none
of the three is present it returns Other with no payload and classify_and_decode
takes the unclassified branch, invoking no decode function. -/
theorem c9_classification_fixed_order (props : PeripheralProperties)
    (d : List Nat) :
    (props.service_data.lookup MIJIA_SERVICE_UUID = some d →
      get_packet_type props = (BlePacketType.Mijia, some d)) ∧
    (props.service_data.lookup MIJIA_SERVICE_UUID = none →
      props.service_data.lookup BTHOME_SERVICE_UUID = some d →
      get_packet_type props = (BlePacketType.BTHome, some d)) ∧
    (props.service_data.lookup MIJIA_SERVICE_UUID = none →
      props.service_data.lookup BTHOME_SERVICE_UUID = none →
      props.service_data.lookup PVVX_SERVICE_UUID = some d →
      get_packet_type props = (BlePacketType.Pvvx, some d)) ∧
    (props.service_data.lookup MIJIA_SERVICE_UUID = none →
      props.service_data.lookup BTHOME_SERVICE_UUID = none →
      props.service_data.lookup PVVX_SERVICE_UUID = none →
      get_packet_type props = (BlePacketType.Other, none) ∧
      classify_and_decode props = CDOutcome.unclassified) := by
  refine ⟨fun h1 => ?_, fun h1 h2 => ?_, fun h1 h2 h3 => ?_, fun h1 h2 h3 => ?_⟩
  · simp [get_packet_type, h1]
  · simp [get_packet_type, h1, h2]
  · simp [get_packet_type, h1, h2, h3]
  · have hg : get_packet_type props = (BlePacketType.Other, none) := by
      simp [get_packet_type, h1, h2, h3]
    exact ⟨hg, by simp [classify_and_decode, hg]⟩

/-- Witness for C9: concrete service-data maps exercising each of the four cases
(each recognized identifier present alone, and an unrecognized identifier 99). -/
theorem c9_classification_witness :
    get_packet_type { service_data := [(MIJIA_SERVICE_UUID, [1])], manufacturer_data := [] } =
      (BlePacketType.Mijia, some [1]) ∧
    get_packet_type { service_data := [(BTHOME_SERVICE_UUID, [2])], manufacturer_data := [] } =
      (BlePacketType.BTHome, some [2]) ∧
    get_packet_type { service_data := [(PVVX_SERVICE_UUID, [3])], manufacturer_data := [] } =
      (BlePacketType.Pvvx, some [3]) ∧
    (get_packet_type { service_data := [(99, [4])], manufacturer_data := [] } =
      (BlePacketType.Other, none) ∧
     classify_and_decode { service_data := [(99, [4])], manufacturer_data := [] } =
      CDOutcome.unclassified) :=
  ⟨(c9_classification_fixed_order
      { service_data := [(MIJIA_SERVICE_UUID, [1])], manufacturer_data := [] } [1]).1
      (by decide),
   (c9_classification_fixed_order
      { service_data := [(BTHOME_SERVICE_UUID, [2])], manufacturer_data := [] } [2]).2.1
      (by decide) (by decide),
   (c9_classification_fixed_order
      { service_data := [(PVVX_SERVICE_UUID, [3])], manufacturer_data := [] } [3]).2.2.1
      (by decide) (by decide) (by decide),
   (c9_classification_fixed_order
      { service_data := [(99, [4])], manufacturer_data := [] } []).2.2.2
      (by decide) (by decide) (by decide)⟩

/-- C10: decode_sensor returns exactly the decode_bthome reading list when that
list is non-empty, and otherwise returns exactly the decode_atc list; the ATC
result is never consulted when the BTHome parse yields at least one reading. -/
theorem c10_decode_sensor_fallback (data : List Nat) :
    (Sensor.decode_bthome data ≠ [] →
      Sensor.decode_sensor data = Sensor.decode_bthome data) ∧
    (Sensor.decode_bthome data = [] →
      Sensor.decode_sensor data = Sensor.decode_atc data) := by
  constructor
  · intro h
    have he : (Sensor.decode_bthome data).isEmpty = false := by
      cases hb : Sensor.decode_bthome data with
      | nil => exact absurd hb h
      | cons a l => rfl
    simp [Sensor.decode_sensor, he]
  · intro h
    simp [Sensor.decode_sensor, h]

/-- Witness for C10: payload 02 32 parses as a BTHome humidity reading (non-empty,
so it is returned as-is), while payload 09 09 parses as no BTHome readings and
falls back to the ATC decoder. -/
theorem c10_decode_sensor_witness :
    Sensor.decode_sensor [2, 50] = Sensor.decode_bthome [2, 50] ∧
    Sensor.decode_sensor [9, 9] = Sensor.decode_atc [9, 9] :=
  ⟨(c10_decode_sensor_fallback [2, 50]).1 (by decide),
   (c10_decode_sensor_fallback [9, 9]).2 (by decide)⟩

end Mitempr

